import Mathlib

/-!
Shallow embedding of the aggregation engine of
`backend/python/services/analytics.py` (class `AnalyticsService`).

Each report builder is modelled as a pure Lean function of the rows its
database fetches return (the Supabase client is the external record
fetcher; the builders only consume the fetched row collections) together
with the builder's parameters and, where the Python code reads the wall
clock (`datetime.now()`), an explicit clock argument.

Numeric values are modelled as exact rationals (`ℚ`).  Python floats and
the final `f"{x:.2f}"`-style string formatting are idealised away: every
claim below is about the numeric values, counts, ordering and shapes, not
about binary rounding.  The one place the *string* form of a number is
compared (`month.growth != "0"` in `get_sales_report`) is modelled with an
`Option ℚ`: `none` is the literal default string `"0"`, `some g` is a
formatted value (a formatted value is never the bare string `"0"`, since
`f"{x:.1f}"` always prints a decimal point).
-/

namespace Izaj

/-- A loosely-typed field value as it arrives from the record store:
a JSON number, a string, or SQL NULL / missing. -/
inductive Value : Type
  | num (q : ℚ)
  | str (s : String)
  | null
  deriving DecidableEq, Repr

/-- Digits to a natural number, most significant first. -/
def digitsToNat (l : List Char) : ℕ :=
  l.foldl (fun n c => 10 * n + (c.toNat - 48)) 0

/-- Parse a decimal literal (optional sign, digits, optional fractional
part), as `pd.to_numeric` accepts for plain decimal strings.  Scientific
notation is not modelled; no claim exercises it.  Returns `none` on any
string that is not such a literal. -/
def parseDecimal (s : String) : Option ℚ :=
  let cs := s.toList
  let signRest : ℚ × List Char :=
    match cs with
    | '-' :: r => (-1, r)
    | '+' :: r => (1, r)
    | r => (1, r)
  let sign := signRest.1
  let rest := signRest.2
  let intPart := rest.takeWhile Char.isDigit
  let rest2 := rest.drop intPart.length
  match rest2 with
  | [] =>
    if intPart = [] then none else some (sign * (digitsToNat intPart : ℚ))
  | '.' :: frac =>
    if frac.all Char.isDigit ∧ (intPart ≠ [] ∨ frac ≠ []) then
      some (sign * ((digitsToNat intPart : ℚ) +
        (digitsToNat frac : ℚ) / (10 ^ frac.length : ℚ)))
    else none
  | _ => none

/-- `pd.to_numeric(x, errors='coerce').fillna(0)` on one cell: a number
passes through, a parseable numeric string is parsed, and anything else
(non-numeric string, NULL, missing) becomes `0`.  Total by construction:
the Python pipeline never raises here. -/
def coerce_numeric (v : Value) : ℚ :=
  match v with
  | .num q => q
  | .str s => (parseDecimal s).getD 0
  | .null => 0

/-- Computable floor of a rational (`⌊q⌋`; the denominator is positive,
so Euclidean division of the numerator by it is the floor). -/
def ratFloor (q : ℚ) : ℤ := q.num / (q.den : ℤ)

/-- Computable ceiling of a rational (`⌈q⌉`). -/
def ratCeil (q : ℚ) : ℤ := -(ratFloor (-q))

/-- `round(x, 1)`.  Python rounds half-to-even on binary floats; we round
half up on `ℚ`.  The two differ only at exact `.x5` ties, which no claim
exercises. -/
def roundTo1 (q : ℚ) : ℚ := (ratFloor (q * 10 + 1 / 2) : ℚ) / 10

/-- `int(x)`: truncation toward zero. -/
def ratTrunc (q : ℚ) : ℤ := if 0 ≤ q then ratFloor q else ratCeil q

/-- A fetched row of the `orders` table as the builders consume it:
`status`, the raw `total_amount` cell, `created_at` as a timestamp in
days (only order comparisons against the cutoff are used), and the
calendar month of `created_at` (`dt.month`, stored 0-based: `month = m`
means calendar month `m + 1`; `pandas` guarantees `dt.month ∈ 1..12`). -/
structure OrderRow : Type where
  status : String
  total_amount : Value
  created_at : ℤ
  month : Fin 12
  deriving DecidableEq, Repr

/-! ### Dashboard stats (`get_dashboard_stats`) -/

/-- `df_orders['status'].value_counts().get(s, 0)`: number of fetched
orders with the given status string. -/
def statusCount (rows : List OrderRow) (s : String) : ℕ :=
  (rows.filter (fun r => r.status = s)).length

/-- The five fixed status buckets plus the grand total (`len(df_orders)`).
The empty-fetch branch of the Python code produces all zeros, which is
what the counting definitions give on `[]`. -/
structure OrderStats : Type where
  pending : ℕ
  approved : ℕ
  in_transit : ℕ
  complete : ℕ
  cancelled : ℕ
  total : ℕ
  deriving DecidableEq, Repr

def orderStatsOf (rows : List OrderRow) : OrderStats where
  pending := statusCount rows "pending"
  approved := statusCount rows "approved"
  in_transit := statusCount rows "in_transit"
  complete := statusCount rows "complete"
  cancelled := statusCount rows "cancelled"
  total := rows.length

/-- `df_orders['total_amount'].sum()` after coercion. -/
def totalEarnings (rows : List OrderRow) : ℚ :=
  (rows.map (fun r => coerce_numeric r.total_amount)).sum

/-- Sum of coerced `total_amount` over orders with `created_at >= cutoff`. -/
def periodEarnings (rows : List OrderRow) (cutoff : ℤ) : ℚ :=
  ((rows.filter (fun r => cutoff ≤ r.created_at)).map
    (fun r => coerce_numeric r.total_amount)).sum

/-- `earnings_growth`: `(period - prev) / prev * 100` when
`prev = total - period > 0`, else `0` (this also covers the empty-fetch
branch, where every quantity is `0`). -/
def earningsGrowth (rows : List OrderRow) (cutoff : ℤ) : ℚ :=
  let prev := totalEarnings rows - periodEarnings rows cutoff
  if 0 < prev then (periodEarnings rows cutoff - prev) / prev * 100 else 0

/-- Customer block: totals are exact counts supplied by the fetch;
`percentage = round(period / total * 100, 1)` with `0` when `total = 0`. -/
structure CustomerStats : Type where
  total : ℕ
  period : ℕ
  percentage : ℚ
  deriving DecidableEq, Repr

/-- Earnings block; `total`/`period`/`growth` carry the numeric values
that the Python code then formats as fixed-decimal strings. -/
structure EarningsStats : Type where
  total : ℚ
  period : ℚ
  growth : ℚ
  currency : String
  deriving DecidableEq, Repr

structure DashboardStats : Type where
  customers : CustomerStats
  orders : OrderStats
  earnings : EarningsStats
  deriving DecidableEq, Repr

/-- `start_date = now - timedelta(days=7|365|30)` by period,
with timestamps in days. -/
def dashboardCutoff (now : ℤ) (period : String) : ℤ :=
  if period = "week" then now - 7
  else if period = "year" then now - 365
  else now - 30

/-- `get_dashboard_stats`.  `now` is the wall-clock reading
(`datetime.now()`, in days); `total_customers` and `period_customers`
are the exact counts returned by the two profile fetches; `orders_data`
is the unfiltered `orders` fetch. -/
def get_dashboard_stats (now : ℤ) (period : String)
    (total_customers period_customers : ℕ)
    (orders_data : List OrderRow) : DashboardStats :=
  let cutoff := dashboardCutoff now period
  { customers :=
      { total := total_customers
        period := period_customers
        percentage :=
          roundTo1 (if 0 < total_customers then
            (period_customers : ℚ) / (total_customers : ℚ) * 100 else 0) }
    orders := orderStatsOf orders_data
    earnings :=
      { total := totalEarnings orders_data
        period := periodEarnings orders_data cutoff
        growth := earningsGrowth orders_data cutoff
        currency := "PHP" } }

/-! ### Sales report (`get_sales_report`) -/

/-- `datetime(year, i, 1).strftime('%B')` for calendar month `i = m + 1`. -/
def monthName (m : Fin 12) : String :=
  ["January", "February", "March", "April", "May", "June", "July",
   "August", "September", "October", "November", "December"].get
    (m.cast (by simp))

/-- `monthly_data.loc[i, 'total_amount'] if i in monthly_data.index else 0`:
the groupby-sum for month `i` when present, else `0` — extensionally the
sum of coerced amounts over the rows of that month. -/
def monthSales (rows : List OrderRow) (m : Fin 12) : ℚ :=
  ((rows.filter (fun r => r.month = m)).map
    (fun r => coerce_numeric r.total_amount)).sum

/-- `monthly_data.loc[i, 'orders'] if i in monthly_data.index else 0`:
the groupby row count for month `i`, else `0`. -/
def monthOrders (rows : List OrderRow) (m : Fin 12) : ℕ :=
  (rows.filter (fun r => r.month = m)).length

/-- One entry of the `monthly` array.  `growth = none` models the literal
string `"0"` (the default), `growth = some g` a value formatted by
`f"{g:.1f}"` (never the bare `"0"`). -/
structure SalesReportMonth : Type where
  month : String
  sales : ℚ
  orders : ℕ
  growth : Option ℚ
  deriving DecidableEq, Repr

/-- The growth cell of month `m`: `"0"` for January and whenever the
previous month's sales are not `> 0`; otherwise
`(sales - prev) / prev * 100`. -/
def monthGrowth (rows : List OrderRow) (m : Fin 12) : Option ℚ :=
  if h : 0 < (m : ℕ) then
    let prev := monthSales rows ⟨(m : ℕ) - 1, by omega⟩
    if 0 < prev then some ((monthSales rows m - prev) / prev * 100)
    else none
  else none

/-- The 12-entry `monthly_array` built by the `for i in range(1, 13)`
loop; the empty-fetch branch of the Python code produces the same array
(every sum and count is `0` on no rows). -/
def salesReportMonthly (rows : List OrderRow) : List SalesReportMonth :=
  (List.finRange 12).map (fun m =>
    { month := monthName m
      sales := monthSales rows m
      orders := monthOrders rows m
      growth := monthGrowth rows m })

structure SalesReportSummary : Type where
  totalSales : ℚ
  totalOrders : ℕ
  averageGrowth : Option ℚ
  deriving DecidableEq, Repr

/-- Summary over a monthly array: total sales and orders over all 12
entries, and `np.mean` of the growth values among `monthly_array[1:]`
whose growth string is not the literal `"0"` (i.e. the `some`s), with
`"0"` (`none`) when there are no such values. -/
def salesReportSummaryOf (monthly : List SalesReportMonth) : SalesReportSummary :=
  let gs := (monthly.drop 1).filterMap (fun e => e.growth)
  { totalSales := (monthly.map (fun e => e.sales)).sum
    totalOrders := (monthly.map (fun e => e.orders)).sum
    averageGrowth :=
      if gs = [] then none else some (gs.sum / (gs.length : ℚ)) }

structure SalesReport : Type where
  monthly : List SalesReportMonth
  summary : SalesReportSummary
  year : ℤ
  deriving DecidableEq, Repr

/-- `get_sales_report`: `rows` is the fetch result (orders with
`status = 'complete'` and `created_at` inside the requested year — both
filters are applied by the external record fetcher). -/
def get_sales_report (rows : List OrderRow) (year : ℤ) : SalesReport :=
  let monthly := salesReportMonthly rows
  { monthly := monthly
    summary := salesReportSummaryOf monthly
    year := year }

/-! ### Monthly earnings (`get_monthly_earnings`) -/

/-- `get_monthly_earnings`: starts from `[0.0] * 12` and overwrites index
`month - 1` with each month group's sum; since the groups partition the
rows by month, entry `m` is exactly the month-`m` sum (and stays `0` for
a month with no rows, and on the empty-fetch branch). -/
def get_monthly_earnings (rows : List OrderRow) : List ℚ :=
  (List.finRange 12).map (fun m => monthSales rows m)

/-! ### Best-selling products (`get_best_selling_products`) -/

/-- A fetched row of `order_items`.  `product_name` is `Option String`:
`none` is SQL NULL / missing (a pandas `NaN`), `some s` an actual string
(possibly empty).  `quantity` and `unit_price` are raw cells, coerced
inside the builders. -/
structure OrderItem : Type where
  order_id : String
  product_id : String
  product_name : Option String
  quantity : Value
  unit_price : Value
  deriving DecidableEq, Repr

/-- `revenue = quantity * unit_price` after coercion of both cells. -/
def itemRevenue (it : OrderItem) : ℚ :=
  coerce_numeric it.quantity * coerce_numeric it.unit_price

/-- The distinct `(product_id, product_name)` group keys of
`groupby(['product_id', 'product_name'])`.  A row whose `product_name`
is NULL has a `NaN` group key and is dropped by pandas; `List.dedup`
keeps first occurrences (pandas then orders groups by key, but the group
order only feeds the quantity sort, whose tie order is unspecified). -/
def itemKeys (items : List OrderItem) : List (String × String) :=
  (items.filterMap (fun it => it.product_name.map (fun n => (it.product_id, n)))).dedup

/-- The rows of one `(product_id, product_name)` group. -/
def keyItems (items : List OrderItem) (k : String × String) : List OrderItem :=
  items.filter (fun it => it.product_id = k.1 ∧ it.product_name = some k.2)

/-- Per-group aggregates of `get_best_selling_products`:
`quantity` sum, `revenue` sum, and the group's row count
(`'product_id': 'count'`, i.e. line-item occurrences). -/
structure ProdGroup : Type where
  product_id : String
  product_name : String
  quantity : ℚ
  revenue : ℚ
  order_count : ℕ
  deriving DecidableEq, Repr

def prodGroupOf (items : List OrderItem) (k : String × String) : ProdGroup where
  product_id := k.1
  product_name := k.2
  quantity := ((keyItems items k).map (fun it => coerce_numeric it.quantity)).sum
  revenue := ((keyItems items k).map itemRevenue).sum
  order_count := (keyItems items k).length

/-- `product_stats` before sorting: one aggregate row per group key. -/
def productStats (items : List OrderItem) : List ProdGroup :=
  (itemKeys items).map (prodGroupOf items)

/-- `sort_values('quantity', ascending=False)`: descending by group
quantity.  pandas' unstable quicksort leaves tie order unspecified; any
comparison sort realises the specified behaviour. -/
def sortByQuantityDesc (l : List ProdGroup) : List ProdGroup :=
  l.insertionSort (fun a b => b.quantity ≤ a.quantity)

structure BestSellingProduct : Type where
  product_id : String
  product_name : String
  total_quantity : ℤ
  total_revenue : ℚ
  order_count : ℕ
  review_count : ℕ
  average_rating : ℚ
  deriving DecidableEq, Repr

/-- The whole per-product `try` block around the reviews fetch:
`fetchReviews pid = none` means the fetch (or the aggregation over its
rows) raised — caught and downgraded to `(0, 0)`; `some rs` is the list
of ratings, giving `len(rs)` and `round(mean, 1)` (`0` on no reviews). -/
def reviewStats (fetchReviews : String → Option (List ℚ)) (pid : String) : ℕ × ℚ :=
  match fetchReviews pid with
  | none => (0, 0)
  | some rs =>
    (rs.length, if rs = [] then 0 else roundTo1 (rs.sum / (rs.length : ℚ)))

/-- Shape one sorted group row into the output record, attaching review
data; `int(...)` / `float(...)` become truncation / identity on `ℚ`. -/
def toBestSelling (fetchReviews : String → Option (List ℚ))
    (g : ProdGroup) : BestSellingProduct where
  product_id := g.product_id
  product_name := g.product_name
  total_quantity := ratTrunc g.quantity
  total_revenue := g.revenue
  order_count := g.order_count
  review_count := (reviewStats fetchReviews g.product_id).1
  average_rating := (reviewStats fetchReviews g.product_id).2

/-- `get_best_selling_products`.  `completed_ids` is the result of the
completed-order-id fetch; `items` the `order_items` fetch (already
restricted by `in_('order_id', completed_ids)` and the optional category
equality filter — both applied by the external record fetcher);
`fetchReviews` the per-product reviews lookup. -/
def get_best_selling_products (completed_ids : List String)
    (items : List OrderItem) (limit : ℕ)
    (fetchReviews : String → Option (List ℚ)) : List BestSellingProduct :=
  if completed_ids = [] then []
  else if items = [] then []
  else ((sortByQuantityDesc (productStats items)).take limit).map
    (toBestSelling fetchReviews)

/-! ### Category sales (`get_category_sales`) -/

/-- Python `str.split()[0]`: the first whitespace-delimited token (split
drops empty tokens, so this is the maximal non-whitespace run after the
leading whitespace), `none` when the string has no token. -/
def firstToken (s : String) : Option String :=
  let t := (s.toList.dropWhile Char.isWhitespace).takeWhile
    (fun c => !c.isWhitespace)
  if t = [] then none else some (String.mk t)

/-- The synthetic category:
`df['product_name'].str.split().str[0]` then `.fillna('Uncategorized')` —
the first whitespace-delimited token of the name, with NULL names and
names yielding no token falling back to `"Uncategorized"`. -/
def categoryOf (name : Option String) : String :=
  match name with
  | none => "Uncategorized"
  | some s => (firstToken s).getD "Uncategorized"

/-- Distinct category keys, first occurrence first (never `NaN` after the
fallback, so `groupby('category')` drops nothing). -/
def categoryKeys (items : List OrderItem) : List String :=
  (items.map (fun it => categoryOf it.product_name)).dedup

/-- The rows of one category group. -/
def catItems (items : List OrderItem) (c : String) : List OrderItem :=
  items.filter (fun it => categoryOf it.product_name = c)

/-- Per-category aggregates: quantity sum, revenue sum, and
`'product_id': 'nunique'` (distinct product ids in the group). -/
structure CatGroup : Type where
  category : String
  quantity : ℚ
  revenue : ℚ
  product_count : ℕ
  deriving DecidableEq, Repr

def catGroupOf (items : List OrderItem) (c : String) : CatGroup where
  category := c
  quantity := ((catItems items c).map (fun it => coerce_numeric it.quantity)).sum
  revenue := ((catItems items c).map itemRevenue).sum
  product_count := ((catItems items c).map (fun it => it.product_id)).dedup.length

def categoryStats (items : List OrderItem) : List CatGroup :=
  (categoryKeys items).map (catGroupOf items)

def sortCatByQuantityDesc (l : List CatGroup) : List CatGroup :=
  l.insertionSort (fun a b => b.quantity ≤ a.quantity)

structure CategorySales : Type where
  category : String
  total_quantity : ℤ
  total_revenue : ℚ
  product_count : ℕ
  deriving DecidableEq, Repr

def toCategorySales (g : CatGroup) : CategorySales where
  category := g.category
  total_quantity := ratTrunc g.quantity
  total_revenue := g.revenue
  product_count := g.product_count

/-- `get_category_sales`; inputs as in `get_best_selling_products`
(items fetched with `in_('order_id', completed_ids)`, no category
filter). -/
def get_category_sales (completed_ids : List String)
    (items : List OrderItem) (limit : ℕ) : List CategorySales :=
  if completed_ids = [] then []
  else if items = [] then []
  else ((sortCatByQuantityDesc (categoryStats items)).take limit).map
    toCategorySales

/-! ### The builders against full tables

`get_best_selling_products` issues two fetches itself; composing the
fetch filters (status equality, id-set membership, both applied by the
record store) with the builder exposes how the result depends on the
stored tables. -/

/-- The completed-order-id fetch over the `orders` table, viewed as
`(id, status)` pairs (the two columns this fetch consumes). -/
def completedIds (orders_table : List (String × String)) : List String :=
  (orders_table.filter (fun o => o.2 = "complete")).map (fun o => o.1)

/-- The `in_('order_id', completed_ids)` filter of the order-items
fetch. -/
def fetchOrderItems (items_table : List OrderItem) (ids : List String) :
    List OrderItem :=
  items_table.filter (fun it => it.order_id ∈ ids)

/-- `get_best_selling_products` run against full tables: both fetches
composed with the builder. -/
def get_best_selling_products_db (orders_table : List (String × String))
    (items_table : List OrderItem) (limit : ℕ)
    (fetchReviews : String → Option (List ℚ)) : List BestSellingProduct :=
  get_best_selling_products (completedIds orders_table)
    (fetchOrderItems items_table (completedIds orders_table)) limit fetchReviews

/-! ### Concrete inputs used by witnesses and counterexamples -/

/-- One completed January order whose amount arrives as the string
`"100.50"` (the scenario values of the spec). -/
def demoRows : List OrderRow :=
  [{ status := "complete", total_amount := Value.str "100.50",
     created_at := 5, month := 0 }]

/-- The dashboard scenario orders: the completed `"100.50"` January
order plus a pending order whose amount is the unparsable `"abc"`. -/
def demoRows2 : List OrderRow :=
  demoRows ++
    [{ status := "pending", total_amount := Value.str "abc",
       created_at := 2, month := 5 }]

/-- The category-sales scenario items: three products named
`"Chandelier Gold"`, `"Chandelier Silver"`, `"Lamp Desk"`. -/
def chandelierItems : List OrderItem :=
  [{ order_id := "o1", product_id := "p1", product_name := some "Chandelier Gold",
     quantity := Value.num 1, unit_price := Value.num 10 },
   { order_id := "o1", product_id := "p2", product_name := some "Chandelier Silver",
     quantity := Value.num 1, unit_price := Value.num 20 },
   { order_id := "o2", product_id := "p3", product_name := some "Lamp Desk",
     quantity := Value.num 1, unit_price := Value.num 5 }]

/-- The first ranked product of the scenario items under a failing
reviews source. -/
def demoBest : BestSellingProduct :=
  { product_id := "p1", product_name := "Chandelier Gold",
    total_quantity := 1, total_revenue := 10, order_count := 1,
    review_count := 0, average_rating := 0 }

/-! ### Helper lemmas -/

theorem list_sum_finRange {M : Type} [AddCommMonoid M] (n : ℕ) (f : Fin n → M) :
    ((List.finRange n).map f).sum = ∑ i, f i := by
  simp [Finset.sum, Fin.univ_def, Multiset.sum_coe]

theorem monthSales_cons (r : OrderRow) (rows : List OrderRow) (m : Fin 12) :
    monthSales (r :: rows) m =
      (if r.month = m then coerce_numeric r.total_amount else 0) + monthSales rows m := by
  simp only [monthSales, List.filter_cons]
  split <;> simp_all

theorem sum_monthSales (rows : List OrderRow) :
    (∑ m : Fin 12, monthSales rows m) = totalEarnings rows := by
  induction rows with
  | nil => simp [monthSales, totalEarnings]
  | cons r rows ih =>
    simp only [monthSales_cons, Finset.sum_add_distrib, ih, totalEarnings,
      List.map_cons, List.sum_cons]
    congr 1
    simp [Finset.sum_ite_eq]

/-- Claim C10: conservation of earnings in `get_monthly_earnings` — for
every fetched collection of completed orders of the requested year, the
sum of the 12 returned monthly values equals the sum of the coerced
`total_amount` values over all fetched orders (`totalEarnings`): the
monthly bucketing neither drops nor double-counts any order's amount. -/
theorem monthly_earnings_conserve_total (rows : List OrderRow) :
    (get_monthly_earnings rows).sum = totalEarnings rows := by
  rw [get_monthly_earnings, list_sum_finRange, sum_monthSales]

/-- Claim C9: in `get_sales_report`'s summary, `totalSales` is the sum of
the 12 monthly sales values (equivalently, of all coerced fetched
amounts), `totalOrders` is the sum of the 12 monthly order counts, and
`averageGrowth` is the arithmetic mean of the growth values of months
2–12 whose growth cell is not the literal string `"0"` (modelled as
`none`); when every such cell is `"0"`, `averageGrowth` is `"0"`. -/
theorem sales_report_summary_consistent (rows : List OrderRow) (year : ℤ) :
    (get_sales_report rows year).summary.totalSales
        = ((get_sales_report rows year).monthly.map (fun e => e.sales)).sum
    ∧ (get_sales_report rows year).summary.totalSales = totalEarnings rows
    ∧ (get_sales_report rows year).summary.totalOrders
        = ((get_sales_report rows year).monthly.map (fun e => e.orders)).sum
    ∧ (get_sales_report rows year).summary.averageGrowth =
        (if (((get_sales_report rows year).monthly.drop 1).filterMap
              (fun e => e.growth)) = [] then none
         else some (((((get_sales_report rows year).monthly.drop 1).filterMap
              (fun e => e.growth)).sum : ℚ)
           / (((((get_sales_report rows year).monthly.drop 1).filterMap
              (fun e => e.growth)).length : ℚ)))) := by
  refine ⟨rfl, ?_, rfl, rfl⟩
  show (salesReportSummaryOf (salesReportMonthly rows)).totalSales = totalEarnings rows
  simp only [salesReportSummaryOf, salesReportMonthly, List.map_map]
  rw [list_sum_finRange]
  simp only [Function.comp_apply]
  exact sum_monthSales rows

theorem getElem?_finRange_map {α : Type} (n : ℕ) (f : Fin n → α) (m : Fin n) :
    ((List.finRange n).map f)[(m : ℕ)]? = some (f m) := by
  rw [List.getElem?_map, List.getElem?_eq_getElem (by simp)]
  simp

theorem monthAgg_of_no_rows {rows : List OrderRow} {m : Fin 12}
    (hm : ∀ r ∈ rows, r.month ≠ m) :
    monthSales rows m = 0 ∧ monthOrders rows m = 0 := by
  have h : rows.filter (fun r => r.month = m) = [] :=
    List.filter_eq_nil_iff.mpr (by intro a ha; simp [hm a ha])
  constructor <;> simp [monthSales, monthOrders, h]

/-- Claim C1: a full-year aggregation always returns exactly 12 monthly
entries in calendar order — `get_sales_report`'s `monthly` list has
exactly 12 entries named by full month name, January first, and
`get_monthly_earnings` returns exactly 12 values with index 0 = January;
a month with no matching orders is zero-filled, never omitted. -/
theorem full_year_always_twelve_months (rows : List OrderRow) (year : ℤ)
    (m : Fin 12) (hm : ∀ r ∈ rows, r.month ≠ m) :
    (get_sales_report rows year).monthly.length = 12
    ∧ (get_sales_report rows year).monthly.map (fun e => e.month) =
        ["January", "February", "March", "April", "May", "June", "July",
         "August", "September", "October", "November", "December"]
    ∧ (get_monthly_earnings rows).length = 12
    ∧ (get_monthly_earnings rows)[(0 : ℕ)]? = some (monthSales rows 0)
    ∧ ((get_sales_report rows year).monthly[(m : ℕ)]?).map
        (fun e => (e.sales, e.orders)) = some (0, 0)
    ∧ (get_monthly_earnings rows)[(m : ℕ)]? = some 0 := by
  obtain ⟨hs, ho⟩ := monthAgg_of_no_rows hm
  refine ⟨by simp [get_sales_report, salesReportMonthly], rfl,
    by simp [get_monthly_earnings], rfl, ?_, ?_⟩
  · show ((salesReportMonthly rows)[(m : ℕ)]?).map (fun e => (e.sales, e.orders))
      = some (0, 0)
    rw [salesReportMonthly, getElem?_finRange_map]
    simp [hs, ho]
  · rw [get_monthly_earnings, getElem?_finRange_map, hs]

/-- Witness for C1 at a concrete input: one completed January order,
June (`m = 5`) has no orders. -/
theorem full_year_always_twelve_months_witness :
    (get_sales_report demoRows 2024).monthly.length = 12
    ∧ (get_sales_report demoRows 2024).monthly.map (fun e => e.month) =
        ["January", "February", "March", "April", "May", "June", "July",
         "August", "September", "October", "November", "December"]
    ∧ (get_monthly_earnings demoRows).length = 12
    ∧ (get_monthly_earnings demoRows)[(0 : ℕ)]? = some (monthSales demoRows 0)
    ∧ ((get_sales_report demoRows 2024).monthly[((⟨5, by omega⟩ : Fin 12) : ℕ)]?).map
        (fun e => (e.sales, e.orders)) = some (0, 0)
    ∧ (get_monthly_earnings demoRows)[((⟨5, by omega⟩ : Fin 12) : ℕ)]? = some 0 :=
  full_year_always_twelve_months demoRows 2024 ⟨5, by omega⟩ (by decide)

/-- Claim C2: every growth percentage is `0` whenever its denominator
(the previous-period value) is `≤ 0` — in `get_dashboard_stats` the
earnings growth is `0` when `total - period ≤ 0`, and in
`get_sales_report` the growth cell is the literal `"0"` (`none`) for
January and for any month whose previous-month sales are `≤ 0`.  All
arithmetic is guarded, so no division by zero ever evaluates. -/
theorem growth_zero_when_denominator_nonpositive
    (now : ℤ) (period : String) (tc pc : ℕ) (rows rows' : List OrderRow)
    (year : ℤ) (m : Fin 12)
    (hprev : totalEarnings rows - periodEarnings rows (dashboardCutoff now period) ≤ 0)
    (hm : monthSales rows'
      ⟨(m : ℕ) - 1, Nat.lt_of_le_of_lt (Nat.sub_le _ _) m.isLt⟩ ≤ 0) :
    (get_dashboard_stats now period tc pc rows).earnings.growth = 0
    ∧ earningsGrowth rows (dashboardCutoff now period) = 0
    ∧ monthGrowth rows' 0 = none
    ∧ monthGrowth rows' m = none
    ∧ ((get_sales_report rows' year).monthly[(0 : ℕ)]?).map (fun e => e.growth)
        = some none
    ∧ ((get_sales_report rows' year).monthly[(m : ℕ)]?).map (fun e => e.growth)
        = some none := by
  have h1 : ¬ (0 < totalEarnings rows -
      periodEarnings rows (dashboardCutoff now period)) := not_lt.mpr hprev
  have hg0 : monthGrowth rows' 0 = none := by simp [monthGrowth]
  have hgm : monthGrowth rows' m = none := by
    by_cases h : 0 < (m : ℕ)
    · simp only [monthGrowth, dif_pos h]
      rw [if_neg (not_lt.mpr hm)]
    · simp [monthGrowth, h]
  refine ⟨by simp [get_dashboard_stats, earningsGrowth, h1],
    by simp [earningsGrowth, h1], hg0, hgm, ?_, ?_⟩
  · show ((salesReportMonthly rows')[(0 : ℕ)]?).map (fun e => e.growth) = some none
    rw [show ((0 : ℕ)) = ((0 : Fin 12) : ℕ) from rfl]
    rw [salesReportMonthly, getElem?_finRange_map]
    simp [hg0]
  · show ((salesReportMonthly rows')[(m : ℕ)]?).map (fun e => e.growth) = some none
    rw [salesReportMonthly, getElem?_finRange_map]
    simp [hgm]

unseal Rat.add Rat.mul Rat.inv Rat.sub Rat.ofScientific in
/-- Witness for C2 at a concrete input: one completed order, a cutoff in
the past so the whole total falls inside the period (previous-period
earnings `= 0`), and a March (`m = 2`) with empty February sales. -/
theorem growth_zero_when_denominator_nonpositive_witness :
    (get_dashboard_stats 10 "week" 0 0 demoRows).earnings.growth = 0
    ∧ earningsGrowth demoRows (dashboardCutoff 10 "week") = 0
    ∧ monthGrowth demoRows 0 = none
    ∧ monthGrowth demoRows ⟨2, by omega⟩ = none
    ∧ ((get_sales_report demoRows 2024).monthly[(0 : ℕ)]?).map (fun e => e.growth)
        = some none
    ∧ ((get_sales_report demoRows 2024).monthly[((⟨2, by omega⟩ : Fin 12) : ℕ)]?).map
        (fun e => e.growth) = some none :=
  growth_zero_when_denominator_nonpositive 10 "week" 0 0 demoRows demoRows 2024
    ⟨2, by omega⟩ (by decide) (by decide)

theorem statusCount_cons (r : OrderRow) (rows : List OrderRow) (s : String) :
    statusCount (r :: rows) s =
      (if r.status = s then 1 else 0) + statusCount rows s := by
  simp only [statusCount, List.filter_cons]
  split <;> simp_all [Nat.add_comm]

theorem statusCount_partition (rows : List OrderRow)
    (h : ∀ r ∈ rows, r.status ∈
      (["pending", "approved", "in_transit", "complete", "cancelled"] : List String)) :
    statusCount rows "pending" + statusCount rows "approved"
      + statusCount rows "in_transit" + statusCount rows "complete"
      + statusCount rows "cancelled" = rows.length := by
  induction rows with
  | nil => rfl
  | cons r rows ih =>
    have hr := h r (List.mem_cons_self r rows)
    have ht := ih (fun a ha => h a (List.mem_cons_of_mem r ha))
    simp only [statusCount_cons, List.length_cons]
    simp only [List.mem_cons, List.mem_singleton, List.not_mem_nil, or_false] at hr
    rcases hr with hr | hr | hr | hr | hr <;> simp [hr] <;> omega

/-- Claim C3: in `get_dashboard_stats`, the five per-status counts
(pending + approved + in_transit + complete + cancelled) sum to the
reported total, which is the number of fetched order rows.  The
hypothesis is the data-model invariant that `status` is one of the five
enum values. -/
theorem dashboard_status_counts_sum_to_total
    (now : ℤ) (period : String) (tc pc : ℕ) (rows : List OrderRow)
    (h : ∀ r ∈ rows, r.status ∈
      (["pending", "approved", "in_transit", "complete", "cancelled"] : List String)) :
    (get_dashboard_stats now period tc pc rows).orders.pending
      + (get_dashboard_stats now period tc pc rows).orders.approved
      + (get_dashboard_stats now period tc pc rows).orders.in_transit
      + (get_dashboard_stats now period tc pc rows).orders.complete
      + (get_dashboard_stats now period tc pc rows).orders.cancelled
      = (get_dashboard_stats now period tc pc rows).orders.total
    ∧ (get_dashboard_stats now period tc pc rows).orders.total = rows.length :=
  ⟨statusCount_partition rows h, rfl⟩

/-- Witness for C3 at a concrete input: one complete and one pending
order (the spec's dashboard scenario statuses). -/
theorem dashboard_status_counts_sum_to_total_witness :
    (get_dashboard_stats 10 "month" 0 0 demoRows2).orders.pending
      + (get_dashboard_stats 10 "month" 0 0 demoRows2).orders.approved
      + (get_dashboard_stats 10 "month" 0 0 demoRows2).orders.in_transit
      + (get_dashboard_stats 10 "month" 0 0 demoRows2).orders.complete
      + (get_dashboard_stats 10 "month" 0 0 demoRows2).orders.cancelled
      = (get_dashboard_stats 10 "month" 0 0 demoRows2).orders.total
    ∧ (get_dashboard_stats 10 "month" 0 0 demoRows2).orders.total
      = demoRows2.length :=
  dashboard_status_counts_sum_to_total 10 "month" 0 0 demoRows2 (by decide)

/-- Claim C5: numeric coercion is total — a total Lean function by
construction, mirroring that `pd.to_numeric(errors='coerce').fillna(0)`
never raises — and maps every unparsable string, and NULL/missing, to
`0`; parseable values pass through; and the coerced values are exactly
what enters the earnings sums and the quantity/revenue aggregates. -/
theorem coerce_numeric_total_defaults_zero (s t : String) (q r : ℚ)
    (rows : List OrderRow) (items : List OrderItem) (k : String × String)
    (hs : parseDecimal s = none) (ht : parseDecimal t = some q) :
    coerce_numeric (Value.str s) = 0
    ∧ coerce_numeric Value.null = 0
    ∧ coerce_numeric (Value.str t) = q
    ∧ coerce_numeric (Value.num r) = r
    ∧ totalEarnings rows = (rows.map (fun x => coerce_numeric x.total_amount)).sum
    ∧ (prodGroupOf items k).quantity =
        ((keyItems items k).map (fun it => coerce_numeric it.quantity)).sum
    ∧ (prodGroupOf items k).revenue =
        ((keyItems items k).map
          (fun it => coerce_numeric it.quantity * coerce_numeric it.unit_price)).sum :=
  ⟨by simp [coerce_numeric, hs], rfl, by simp [coerce_numeric, ht], rfl, rfl,
    rfl, rfl⟩

unseal Rat.add Rat.mul Rat.inv Rat.sub Rat.ofScientific in
/-- Witness for C5 at concrete inputs: `"abc"` fails to parse and
coerces to `0`; `"100.50"` parses to `201/2`. -/
theorem coerce_numeric_total_defaults_zero_witness :
    coerce_numeric (Value.str "abc") = 0
    ∧ coerce_numeric Value.null = 0
    ∧ coerce_numeric (Value.str "100.50") = 201 / 2
    ∧ coerce_numeric (Value.num 7) = 7
    ∧ totalEarnings demoRows2 =
        (demoRows2.map (fun x => coerce_numeric x.total_amount)).sum
    ∧ (prodGroupOf chandelierItems ("p1", "Chandelier Gold")).quantity =
        ((keyItems chandelierItems ("p1", "Chandelier Gold")).map
          (fun it => coerce_numeric it.quantity)).sum
    ∧ (prodGroupOf chandelierItems ("p1", "Chandelier Gold")).revenue =
        ((keyItems chandelierItems ("p1", "Chandelier Gold")).map
          (fun it => coerce_numeric it.quantity * coerce_numeric it.unit_price)).sum :=
  coerce_numeric_total_defaults_zero "abc" "100.50" (201 / 2) 7 demoRows2
    chandelierItems ("p1", "Chandelier Gold") (by decide) (by decide)

unseal Rat.add Rat.mul Rat.inv Rat.sub Rat.ofScientific in
/-- Claim C6: `get_category_sales` groups every item under the first
whitespace-delimited token of its `product_name`, with empty/missing
names falling into `"Uncategorized"`; every returned group's category is
one of those derived keys; and the scenario
`["Chandelier Gold", "Chandelier Silver", "Lamp Desk"]` produces exactly
the two groups `"Chandelier"` (2 distinct products) and `"Lamp"` (1). -/
theorem category_sales_grouped_by_first_token (items : List OrderItem)
    (s u tok : String) (ids : List String) (limit : ℕ) (g : CategorySales)
    (hs : firstToken s = none) (hu : firstToken u = some tok)
    (hg : g ∈ get_category_sales ids items limit) :
    categoryOf none = "Uncategorized"
    ∧ categoryOf (some s) = "Uncategorized"
    ∧ categoryOf (some u) = tok
    ∧ g.category ∈ items.map (fun it => categoryOf it.product_name)
    ∧ (get_category_sales ["o1", "o2"] chandelierItems 10).map
        (fun e => (e.category, e.product_count)) =
        [("Chandelier", 2), ("Lamp", 1)] := by
  refine ⟨rfl, by simp [categoryOf, hs], by simp [categoryOf, hu], ?_, by decide⟩
  rw [get_category_sales] at hg
  split_ifs at hg with h1 h2
  · exact absurd hg (List.not_mem_nil g)
  · exact absurd hg (List.not_mem_nil g)
  · obtain ⟨cg, hcg, rfl⟩ := List.mem_map.mp hg
    have hcg' : cg ∈ sortCatByQuantityDesc (categoryStats items) :=
      List.take_subset limit _ hcg
    have hcg'' : cg ∈ categoryStats items := by
      rw [sortCatByQuantityDesc] at hcg'
      exact (List.mem_insertionSort _).mp hcg'
    obtain ⟨c, hc, rfl⟩ := List.mem_map.mp hcg''
    show (catGroupOf items c).category ∈ _
    have : (catGroupOf items c).category = c := rfl
    rw [this]
    exact List.mem_dedup.mp hc

unseal Rat.add Rat.mul Rat.inv Rat.sub Rat.ofScientific in
/-- Witness for C6: whitespace-only name has no token; the scenario's
first result element is the `"Chandelier"` group. -/
theorem category_sales_grouped_by_first_token_witness :
    categoryOf none = "Uncategorized"
    ∧ categoryOf (some "   ") = "Uncategorized"
    ∧ categoryOf (some "Chandelier Gold") = "Chandelier"
    ∧ ({ category := "Chandelier", total_quantity := 2, total_revenue := 30,
         product_count := 2 } : CategorySales).category ∈
        chandelierItems.map (fun it => categoryOf it.product_name)
    ∧ (get_category_sales ["o1", "o2"] chandelierItems 10).map
        (fun e => (e.category, e.product_count)) =
        [("Chandelier", 2), ("Lamp", 1)] :=
  category_sales_grouped_by_first_token chandelierItems "   " "Chandelier Gold"
    "Chandelier" ["o1", "o2"] 10
    { category := "Chandelier", total_quantity := 2, total_revenue := 30,
      product_count := 2 }
    (by decide) (by decide) (by decide)

/-- Claim C7: in `get_best_selling_products`, a failing per-product
reviews lookup (`fetchReviews pid = none`, the caught `except` branch)
never fails the report: the affected product is returned with
`review_count = 0` and `average_rating = 0`, and all non-review fields
of the whole result are independent of the reviews source. -/
theorem review_failure_tolerated (ids : List String) (items : List OrderItem)
    (limit : ℕ) (f g : String → Option (List ℚ)) (p : BestSellingProduct)
    (hp : p ∈ get_best_selling_products ids items limit f)
    (hf : f p.product_id = none) :
    p.review_count = 0 ∧ p.average_rating = 0
    ∧ (get_best_selling_products ids items limit f).map
        (fun e => (e.product_id, e.product_name, e.total_quantity,
          e.total_revenue, e.order_count))
      = (get_best_selling_products ids items limit g).map
        (fun e => (e.product_id, e.product_name, e.total_quantity,
          e.total_revenue, e.order_count)) := by
  have hmap :
      (get_best_selling_products ids items limit f).map
        (fun e => (e.product_id, e.product_name, e.total_quantity,
          e.total_revenue, e.order_count))
      = (get_best_selling_products ids items limit g).map
        (fun e => (e.product_id, e.product_name, e.total_quantity,
          e.total_revenue, e.order_count)) := by
    rw [get_best_selling_products, get_best_selling_products]
    split_ifs
    · rfl
    · rfl
    · rw [List.map_map, List.map_map]
      rfl
  rw [get_best_selling_products] at hp
  split_ifs at hp
  · exact absurd hp (List.not_mem_nil p)
  · exact absurd hp (List.not_mem_nil p)
  · obtain ⟨gr, hgr, rfl⟩ := List.mem_map.mp hp
    have hid : (toBestSelling f gr).product_id = gr.product_id := rfl
    rw [hid] at hf
    refine ⟨?_, ?_, hmap⟩
    · show (reviewStats f gr.product_id).1 = 0
      rw [reviewStats, hf]
    · show (reviewStats f gr.product_id).2 = 0
      rw [reviewStats, hf]

unseal Rat.add Rat.mul Rat.inv Rat.sub Rat.ofScientific in
/-- Witness for C7: the scenario items with an always-failing reviews
source on one side and an always-succeeding one on the other. -/
theorem review_failure_tolerated_witness :
    demoBest.review_count = 0
    ∧ demoBest.average_rating = 0
    ∧ (get_best_selling_products ["o1", "o2"] chandelierItems 2
        (fun _ => none)).map
        (fun e => (e.product_id, e.product_name, e.total_quantity,
          e.total_revenue, e.order_count))
      = (get_best_selling_products ["o1", "o2"] chandelierItems 2
        (fun _ => some [5])).map
        (fun e => (e.product_id, e.product_name, e.total_quantity,
          e.total_revenue, e.order_count)) :=
  review_failure_tolerated ["o1", "o2"] chandelierItems 2
    (fun _ => none) (fun _ => some [5]) demoBest (by decide) (by decide)

theorem ratFloor_eq (q : ℚ) : ratFloor q = ⌊q⌋ := by
  rw [Rat.floor_def]; rfl

theorem ratCeil_eq (q : ℚ) : ratCeil q = ⌈q⌉ := by
  rw [ratCeil, ratFloor_eq, Int.floor_neg, neg_neg]

theorem ratTrunc_mono {x y : ℚ} (h : x ≤ y) : ratTrunc x ≤ ratTrunc y := by
  unfold ratTrunc
  rcases le_or_lt 0 x with hx | hx
  · rw [if_pos hx, if_pos (le_trans hx h), ratFloor_eq, ratFloor_eq]
    exact Int.floor_mono h
  · rw [if_neg (not_le.mpr hx)]
    rcases le_or_lt 0 y with hy | hy
    · rw [if_pos hy, ratCeil_eq, ratFloor_eq]
      have h1 : (⌈x⌉ : ℤ) ≤ 0 := Int.ceil_le.mpr (by exact_mod_cast hx.le)
      have h2 : (0 : ℤ) ≤ ⌊y⌋ := Int.le_floor.mpr (by exact_mod_cast hy)
      omega
    · rw [if_neg (not_le.mpr hy), ratCeil_eq, ratCeil_eq]
      exact Int.ceil_mono h

theorem sortByQuantityDesc_sorted (l : List ProdGroup) :
    List.Sorted (fun a b => b.quantity ≤ a.quantity) (sortByQuantityDesc l) := by
  haveI : IsTotal ProdGroup (fun a b => b.quantity ≤ a.quantity) :=
    ⟨fun a b => le_total b.quantity a.quantity⟩
  haveI : IsTrans ProdGroup (fun a b => b.quantity ≤ a.quantity) :=
    ⟨fun a b c h1 h2 => le_trans h2 h1⟩
  exact List.sorted_insertionSort _ l

theorem sortCatByQuantityDesc_sorted (l : List CatGroup) :
    List.Sorted (fun a b => b.quantity ≤ a.quantity) (sortCatByQuantityDesc l) := by
  haveI : IsTotal CatGroup (fun a b => b.quantity ≤ a.quantity) :=
    ⟨fun a b => le_total b.quantity a.quantity⟩
  haveI : IsTrans CatGroup (fun a b => b.quantity ≤ a.quantity) :=
    ⟨fun a b c h1 h2 => le_trans h2 h1⟩
  exact List.sorted_insertionSort _ l

/-- Claim C4: for every requested limit and every input, the rankings of
`get_best_selling_products` and `get_category_sales` are sorted in
descending order of total quantity and contain at most `limit` entries;
and whenever at most `limit` distinct groups exist (given the fetch
contract that every item's `order_id` is a completed-order id), the
result consists of exactly all of those groups — never fabricated
entries. -/
theorem rankings_sorted_limited_and_complete (ids : List String)
    (items : List OrderItem) (limit : ℕ) (f : String → Option (List ℚ)) :
    List.Sorted (fun a b => b.total_quantity ≤ a.total_quantity)
      (get_best_selling_products ids items limit f)
    ∧ (get_best_selling_products ids items limit f).length ≤ limit
    ∧ List.Sorted (fun a b => b.total_quantity ≤ a.total_quantity)
      (get_category_sales ids items limit)
    ∧ (get_category_sales ids items limit).length ≤ limit
    ∧ ((∀ it ∈ items, it.order_id ∈ ids) → (itemKeys items).length ≤ limit →
        List.Perm ((get_best_selling_products ids items limit f).map
          (fun p => (p.product_id, p.product_name))) (itemKeys items))
    ∧ ((∀ it ∈ items, it.order_id ∈ ids) → (categoryKeys items).length ≤ limit →
        List.Perm ((get_category_sales ids items limit).map (fun g => g.category))
          (categoryKeys items)) := by
  by_cases h1 : ids = []
  · refine ⟨?_, ?_, ?_, ?_, ?_, ?_⟩ <;>
      simp only [get_best_selling_products, get_category_sales, if_pos h1]
    · exact List.sorted_nil
    · simp
    · exact List.sorted_nil
    · simp
    · intro hfetch _
      have hitems : items = [] := by
        cases items with
        | nil => rfl
        | cons a l =>
          exact absurd (hfetch a (List.mem_cons_self a l))
            (by simp [h1])
      simp [hitems, itemKeys]
    · intro hfetch _
      have hitems : items = [] := by
        cases items with
        | nil => rfl
        | cons a l =>
          exact absurd (hfetch a (List.mem_cons_self a l))
            (by simp [h1])
      simp [hitems, categoryKeys]
  · by_cases h2 : items = []
    · refine ⟨?_, ?_, ?_, ?_, ?_, ?_⟩ <;>
        simp only [get_best_selling_products, get_category_sales,
          if_neg h1, if_pos h2]
      · exact List.sorted_nil
      · simp
      · exact List.sorted_nil
      · simp
      · intro _ _
        simp [h2, itemKeys]
      · intro _ _
        simp [h2, categoryKeys]
    · have hsortp := sortByQuantityDesc_sorted (productStats items)
      have hsortc := sortCatByQuantityDesc_sorted (categoryStats items)
      refine ⟨?_, ?_, ?_, ?_, ?_, ?_⟩ <;>
        simp only [get_best_selling_products, get_category_sales,
          if_neg h1, if_neg h2]
      · rw [List.Sorted, List.pairwise_map]
        exact ((hsortp.sublist (List.take_sublist _ _)).imp
          (fun h => ratTrunc_mono h))
      · simp
      · rw [List.Sorted, List.pairwise_map]
        exact ((hsortc.sublist (List.take_sublist _ _)).imp
          (fun h => ratTrunc_mono h))
      · simp
      · intro _ hlim
        have hlen : (sortByQuantityDesc (productStats items)).length ≤ limit := by
          rw [sortByQuantityDesc, List.length_insertionSort, productStats,
            List.length_map]
          exact hlim
        rw [List.take_of_length_le hlen, List.map_map]
        have hp : ((fun p : BestSellingProduct => (p.product_id, p.product_name))
            ∘ toBestSelling f) = (fun g : ProdGroup => (g.product_id, g.product_name)) :=
          rfl
        rw [hp]
        refine ((List.perm_insertionSort _ _).map _).trans ?_
        rw [productStats, List.map_map]
        have hq : ((fun g : ProdGroup => (g.product_id, g.product_name))
            ∘ prodGroupOf items) = (fun k : String × String => (k.1, k.2)) := rfl
        rw [hq]
        simp
      · intro _ hlim
        have hlen : (sortCatByQuantityDesc (categoryStats items)).length ≤ limit := by
          rw [sortCatByQuantityDesc, List.length_insertionSort, categoryStats,
            List.length_map]
          exact hlim
        rw [List.take_of_length_le hlen, List.map_map]
        have hp : ((fun g : CategorySales => g.category) ∘ toCategorySales) =
            (fun g : CatGroup => g.category) := rfl
        rw [hp]
        refine ((List.perm_insertionSort _ _).map _).trans ?_
        rw [categoryStats, List.map_map]
        have hq : ((fun g : CatGroup => g.category) ∘ catGroupOf items) =
            (fun c : String => c) := rfl
        rw [hq]
        simp

unseal Rat.add Rat.mul Rat.inv Rat.sub Rat.ofScientific in
/-- Witness for C4: the three scenario items with limit 3 — all three
product groups and both category groups survive. -/
theorem rankings_sorted_limited_and_complete_witness :
    (List.Sorted (fun a b => b.total_quantity ≤ a.total_quantity)
      (get_best_selling_products ["o1", "o2"] chandelierItems 3 (fun _ => none))
    ∧ (get_best_selling_products ["o1", "o2"] chandelierItems 3
        (fun _ => none)).length ≤ 3
    ∧ List.Sorted (fun a b => b.total_quantity ≤ a.total_quantity)
      (get_category_sales ["o1", "o2"] chandelierItems 3)
    ∧ (get_category_sales ["o1", "o2"] chandelierItems 3).length ≤ 3
    ∧ ((∀ it ∈ chandelierItems, it.order_id ∈ (["o1", "o2"] : List String)) →
        (itemKeys chandelierItems).length ≤ 3 →
        List.Perm ((get_best_selling_products ["o1", "o2"] chandelierItems 3
          (fun _ => none)).map (fun p => (p.product_id, p.product_name)))
          (itemKeys chandelierItems))
    ∧ ((∀ it ∈ chandelierItems, it.order_id ∈ (["o1", "o2"] : List String)) →
        (categoryKeys chandelierItems).length ≤ 3 →
        List.Perm ((get_category_sales ["o1", "o2"] chandelierItems 3).map
          (fun g => g.category)) (categoryKeys chandelierItems)))
    ∧ List.Perm ((get_best_selling_products ["o1", "o2"] chandelierItems 3
        (fun _ => none)).map (fun p => (p.product_id, p.product_name)))
        (itemKeys chandelierItems)
    ∧ List.Perm ((get_category_sales ["o1", "o2"] chandelierItems 3).map
        (fun g => g.category)) (categoryKeys chandelierItems) :=
  ⟨rankings_sorted_limited_and_complete ["o1", "o2"] chandelierItems 3
      (fun _ => none),
    (rankings_sorted_limited_and_complete ["o1", "o2"] chandelierItems 3
      (fun _ => none)).2.2.2.2.1 (by decide) (by decide),
    (rankings_sorted_limited_and_complete ["o1", "o2"] chandelierItems 3
      (fun _ => none)).2.2.2.2.2 (by decide) (by decide)⟩

unseal Rat.add Rat.mul Rat.inv Rat.sub Rat.ofScientific in
/-- Counterexample to C8 as stated: `get_dashboard_stats` reads the wall
clock (`datetime.now()`), which is neither fetched data nor a parameter.
Two calls with the same period parameter, the same customer counts and
the same fetched orders, made at clock readings 10 and 50 (days), return
different results: the single order at timestamp 5 falls inside the
7-day window of the first call but outside that of the second, changing
the period earnings and the growth. -/
theorem report_depends_on_wall_clock :
    get_dashboard_stats 10 "week" 0 0 demoRows
      ≠ get_dashboard_stats 50 "week" 0 0 demoRows := by
  decide

/-- Claim C8 (amended): every report builder is a pure function of the
fetched data, its parameters, and the wall-clock reading taken at the
start of the call; `get_dashboard_stats` depends on the clock only
through the period cutoff, and the ranking builders depend on the
`orders` table only through the fetched completed-order ids.  With the
clock reading fixed, identical calls against an unchanged snapshot
return identical results. -/
theorem reports_pure_given_clock_and_fetched_data
    (now now' : ℤ) (period period' : String) (tc pc : ℕ)
    (rows : List OrderRow) (ot ot' : List (String × String))
    (it : List OrderItem) (limit : ℕ) (f : String → Option (List ℚ))
    (hcut : dashboardCutoff now period = dashboardCutoff now' period')
    (hids : completedIds ot = completedIds ot') :
    get_dashboard_stats now period tc pc rows
      = get_dashboard_stats now' period' tc pc rows
    ∧ get_best_selling_products_db ot it limit f
      = get_best_selling_products_db ot' it limit f := by
  constructor
  · rw [get_dashboard_stats, get_dashboard_stats, hcut]
  · rw [get_best_selling_products_db, get_best_selling_products_db, hids]

unseal Rat.add Rat.mul Rat.inv Rat.sub Rat.ofScientific in
/-- Witness for amended C8: clock 10 with a week window and clock 33
with a month window share the cutoff 3; two orders tables with different
non-complete rows share their completed ids. -/
theorem reports_pure_given_clock_and_fetched_data_witness :
    get_dashboard_stats 10 "week" 0 0 demoRows
      = get_dashboard_stats 33 "month" 0 0 demoRows
    ∧ get_best_selling_products_db [("o1", "complete"), ("o3", "pending")]
        chandelierItems 2 (fun _ => none)
      = get_best_selling_products_db [("o1", "complete"), ("o4", "cancelled")]
        chandelierItems 2 (fun _ => none) :=
  reports_pure_given_clock_and_fetched_data 10 33 "week" "month" 0 0 demoRows
    [("o1", "complete"), ("o3", "pending")]
    [("o1", "complete"), ("o4", "cancelled")]
    chandelierItems 2 (fun _ => none) (by decide) (by decide)

end Izaj
